import Mathlib

/-!
Shallow embedding of the MinIO Python SDK client layer
(src/sdk/python/minio/client.py, src/sdk/python/minio/models.py,
src/sdk/python/minio_enterprise.py, src/sdk/python/minio_enterprise/client.py,
src/sdk/python/minio_enterprise/exceptions.py, src/sdk_python_client.py),
together with spec-modelled fragments of the server core (spec.md §4.2, §6)
where a claim needs the wire peer. Theorems settle the frozen claims.
-/

namespace MinioSpec

/-! ## Python string helpers

Models of the Python operations used by the client code:
`needle in haystack` (substring test) and `str.lower()`. -/

/-- Model of list-of-chars prefix test, building block for the Python
substring operator. -/
def charsPrefixOf : List Char → List Char → Bool
  | [], _ => true
  | _ :: _, [] => false
  | a :: as, b :: bs => a == b && charsPrefixOf as bs

/-- Model of the Python substring operator over explicit char lists:
does the first list occur contiguously inside the second. -/
def charsInfixOf (pat : List Char) : List Char → Bool
  | [] => charsPrefixOf pat []
  | c :: cs => charsPrefixOf pat (c :: cs) || charsInfixOf pat cs

/-- Model of Python `pat in hay` for strings: substring containment. -/
def strContains (hay pat : String) : Bool :=
  charsInfixOf pat.data hay.data

/-- Model of Python `str.lower()` (ASCII-faithful). -/
def strLower (s : String) : String :=
  String.mk (s.data.map Char.toLower)

/-! ## Exceptions (src/sdk/python/minio/exceptions.py)

Every exception class carries `message`, `status_code` (optional) and
`response_body` (optional), mirroring `MinIOError.__init__`. -/

/-- Exceptions raised by the minio/client.py client, one constructor per
class in src/sdk/python/minio/exceptions.py. -/
inductive MinioExc where
  | authenticationError (message : String) (statusCode : Option Nat) (responseBody : Option String)
  | quotaExceededError (message : String) (statusCode : Option Nat) (responseBody : Option String)
  | notFoundError (message : String) (statusCode : Option Nat) (responseBody : Option String)
  | validationError (message : String)
  | rateLimitError (message : String) (statusCode : Option Nat) (responseBody : Option String)
  | serverError (message : String) (statusCode : Option Nat) (responseBody : Option String)
  | minioError (message : String) (statusCode : Option Nat) (responseBody : Option String)
  deriving DecidableEq, Repr

/-- The `status_code` attribute of an exception (None for a
ValidationError raised with message only). -/
def MinioExc.statusCodeAttr : MinioExc → Option Nat
  | .authenticationError _ sc _ => sc
  | .quotaExceededError _ sc _ => sc
  | .notFoundError _ sc _ => sc
  | .validationError _ => Option.none
  | .rateLimitError _ sc _ => sc
  | .serverError _ sc _ => sc
  | .minioError _ sc _ => sc

/-- Coarse classification of a handled response, used to state claims
about which exception class is raised. -/
inductive RespKind where
  | ok
  | auth
  | quota
  | notFound
  | rateLimit
  | server
  | validation
  | generic
  deriving DecidableEq, Repr

/-- The class of the outcome of handling one response. -/
def respKind : Except MinioExc Unit → RespKind
  | .ok _ => .ok
  | .error (.authenticationError _ _ _) => .auth
  | .error (.quotaExceededError _ _ _) => .quota
  | .error (.notFoundError _ _ _) => .notFound
  | .error (.validationError _) => .validation
  | .error (.rateLimitError _ _ _) => .rateLimit
  | .error (.serverError _ _ _) => .server
  | .error (.minioError _ _ _) => .generic

/-! ## Response handler (src/sdk/python/minio/client.py, Client._handle_response) -/

/-- Embedding of `Client._handle_response`: status below 300 is success;
then 401/403, 404, 429 are classified by status; then any body whose
lowercasing contains the substring "quota exceeded" becomes a quota
error; then 5xx becomes a server error; anything else a generic error. -/
def handle_response (status : Nat) (body : String) : Except MinioExc Unit :=
  if status < 300 then .ok ()
  else if status = 401 ∨ status = 403 then
    .error (.authenticationError ("Authentication failed: " ++ body) (some status) (some body))
  else if status = 404 then
    .error (.notFoundError ("Resource not found: " ++ body) (some status) (some body))
  else if status = 429 then
    .error (.rateLimitError ("Rate limit exceeded: " ++ body) (some status) (some body))
  else if strContains (strLower body) "quota exceeded" then
    .error (.quotaExceededError ("Quota exceeded: " ++ body) (some status) (some body))
  else if 500 ≤ status then
    .error (.serverError ("Server error: " ++ body) (some status) (some body))
  else
    .error (.minioError ("Request failed with status " ++ toString status ++ ": " ++ body)
      (some status) (some body))

/-! ## Retry configuration of each client session

The three session constructors in the sources configure urllib3 `Retry`
with an explicit `status_forcelist`; a response status is automatically
retried by the session exactly when it is in that list. The plain client
in src/sdk_python_client.py mounts its adapter with `max_retries=0` and
performs its own uniform retry loop instead. -/

/-- status_forcelist of minio/client.py `Client.__init__` (line 81). -/
def clientStatusForcelist : List Nat := [429, 500, 502, 503, 504]

/-- status_forcelist of minio_enterprise.py `MinIOClient.__init__` (line 77). -/
def enterpriseModuleStatusForcelist : List Nat := [500, 502, 503, 504]

/-- status_forcelist of minio_enterprise/client.py `Client._create_session`
(line 180). -/
def enterprisePkgStatusForcelist : List Nat := [429, 500, 502, 503, 504]

/-- Adapter-level `max_retries` of src/sdk_python_client.py
`MinIOClient.__init__` (line 129): retries are handled manually there. -/
def sdkPlainAdapterMaxRetries : Nat := 0

/-! ## Enterprise exception defaults (src/sdk/python/minio_enterprise/exceptions.py) -/

/-- Embedding of the `APIError` class of minio_enterprise/exceptions.py:
message, optional status_code, retryable flag. -/
structure APIErrorE where
  message : String
  status_code : Option Nat
  retryable : Bool
  deriving DecidableEq, Repr

/-- The value of `QuotaExceededError()` constructed with its default
arguments: message "Quota exceeded", status_code 403, retryable False. -/
def enterpriseQuotaExceededDefault : APIErrorE :=
  { message := "Quota exceeded", status_code := some 403, retryable := false }

/-- The status_code carried by the exception a handled response raises
(none when the response was a success). -/
def raisedStatus : Except MinioExc Unit → Option Nat
  | .ok _ => Option.none
  | .error e => e.statusCodeAttr

/-! ## Claim theorems: retry forcelists and response classification -/

/-- C1 counterexample: the claim says every client session treats exactly
429/500/502/503/504 as automatically retryable, but the MinIOClient
session of minio_enterprise.py omits 429 from its status_forcelist
(while the minio/client.py session does include it). -/
theorem C1_counterexample :
    enterpriseModuleStatusForcelist.contains 429 = false ∧
    clientStatusForcelist.contains 429 = true := by decide

/-- C1 (amended): the minio/client.py Client session and the
minio_enterprise/client.py Client session configure exactly
the status set 429/500/502/503/504 as automatically retryable; the
minio_enterprise.py MinIOClient session configures exactly
the status set 500/502/503/504, so 429 is not automatically retried there;
and the plain src/sdk_python_client.py client disables adapter-level
status retries entirely (max_retries 0). -/
theorem C1_retryable_status_sets (c : Nat) :
    (c ∈ clientStatusForcelist ↔ c = 429 ∨ c = 500 ∨ c = 502 ∨ c = 503 ∨ c = 504) ∧
    (c ∈ enterprisePkgStatusForcelist ↔ c = 429 ∨ c = 500 ∨ c = 502 ∨ c = 503 ∨ c = 504) ∧
    (c ∈ enterpriseModuleStatusForcelist ↔ c = 500 ∨ c = 502 ∨ c = 503 ∨ c = 504) ∧
    sdkPlainAdapterMaxRetries = 0 := by
  simp [clientStatusForcelist, enterprisePkgStatusForcelist,
    enterpriseModuleStatusForcelist, sdkPlainAdapterMaxRetries]

/-- C2 counterexample: the claim says any non-success body containing the
substring "quota" (case-insensitively) is classified as a quota error;
but a 500 response whose body is "quota limit reached" contains "quota"
while the handler classifies it as ServerError, because the code matches
the longer substring "quota exceeded". -/
theorem C2_counterexample :
    strContains (strLower "quota limit reached") "quota" = true ∧
    respKind (handle_response 500 "quota limit reached") = RespKind.server := by decide

/-- C2 (amended): the handler raises QuotaExceededError exactly for the
non-success responses (status at least 300) whose status is none of
401, 403, 404, 429 and whose body contains the substring
"quota exceeded" compared case-insensitively; a body containing "quota"
without "quota exceeded" is not classified as a quota error. -/
theorem C2_quota_classification (status : Nat) (body : String) :
    respKind (handle_response status body) = RespKind.quota ↔
      300 ≤ status ∧ status ≠ 401 ∧ status ≠ 403 ∧ status ≠ 404 ∧ status ≠ 429 ∧
        strContains (strLower body) "quota exceeded" = true := by
  unfold handle_response
  split_ifs with h1 h2 h3 h4 h5 h6 <;> simp_all [respKind] <;> omega

/-- C3 counterexample: the claim says a quota-exceeded upload failure with
status 403 raises a quota-exceeded error with status_code 403; but the
minio/client.py handler classifies every 403 response — here one whose
body is literally "quota exceeded" — as AuthenticationError, not as
QuotaExceededError. -/
theorem C3_counterexample :
    respKind (handle_response 403 "quota exceeded") = RespKind.auth ∧
    RespKind.auth ≠ RespKind.quota ∧
    handle_response 403 "quota exceeded" =
      .error (.authenticationError "Authentication failed: quota exceeded"
        (some 403) (some "quota exceeded")) :=
  ⟨by decide, by decide, by rfl⟩

/-- C3 (amended): the QuotaExceededError class of
minio_enterprise/exceptions.py does default its status_code to 403 (and
retryable to False); but the minio/client.py handler maps every 403
response to AuthenticationError, so a 403 quota failure surfaces as
AuthenticationError there, and QuotaExceededError is raised only for
non-success statuses outside 401/403/404/429 whose body contains
"quota exceeded", with status_code equal to that response status. -/
theorem C3_amended_quota_status (status : Nat) (body : String) :
    enterpriseQuotaExceededDefault.status_code = some 403 ∧
    enterpriseQuotaExceededDefault.retryable = false ∧
    respKind (handle_response 403 body) = RespKind.auth ∧
    (300 ≤ status → status ≠ 401 → status ≠ 403 → status ≠ 404 → status ≠ 429 →
      strContains (strLower body) "quota exceeded" = true →
      respKind (handle_response status body) = RespKind.quota ∧
      raisedStatus (handle_response status body) = some status) := by
  refine ⟨rfl, rfl, ?_, ?_⟩
  · unfold handle_response
    split_ifs <;> simp_all [respKind]
  · intro h1 h2 h3 h4 h5 h6
    unfold handle_response
    rw [if_neg (by omega), if_neg (by omega), if_neg (by omega), if_neg (by omega), if_pos h6]
    exact ⟨rfl, rfl⟩

/-- C3 witness: instantiating the amended claim at a 507 response whose
body is "quota exceeded". -/
theorem C3_amended_quota_status_witness :
    respKind (handle_response 507 "quota exceeded") = RespKind.quota ∧
    raisedStatus (handle_response 507 "quota exceeded") = some 507 :=
  (C3_amended_quota_status 507 "quota exceeded").2.2.2
    (by omega) (by omega) (by omega) (by omega) (by omega) (by decide)

/-- C9: status-code classification takes precedence over the quota body
check: 401 and 403 raise AuthenticationError for every body (including a
body containing "quota exceeded"), 404 raises NotFoundError and 429
RateLimitError regardless of body, and a 5xx response whose body
contains "quota exceeded" (case-insensitive) raises QuotaExceededError
rather than ServerError. -/
theorem C9_precedence (status : Nat) (body : String) :
    respKind (handle_response 401 body) = RespKind.auth ∧
    respKind (handle_response 403 body) = RespKind.auth ∧
    respKind (handle_response 404 body) = RespKind.notFound ∧
    respKind (handle_response 429 body) = RespKind.rateLimit ∧
    (500 ≤ status → strContains (strLower body) "quota exceeded" = true →
      respKind (handle_response status body) = RespKind.quota) := by
  refine ⟨?_, ?_, ?_, ?_, ?_⟩
  · unfold handle_response; split_ifs <;> simp_all [respKind]
  · unfold handle_response; split_ifs <;> simp_all [respKind]
  · unfold handle_response; split_ifs <;> simp_all [respKind]
  · unfold handle_response; split_ifs <;> simp_all [respKind]
  · intro h1 h2
    unfold handle_response
    rw [if_neg (by omega), if_neg (by omega), if_neg (by omega), if_neg (by omega), if_pos h2]
    rfl

/-- C9 witness: instantiating the precedence theorem at a 503 response
whose body announces quota exhaustion. -/
theorem C9_precedence_witness :
    respKind (handle_response 403 "Quota Exceeded for tenant") = RespKind.auth ∧
    respKind (handle_response 503 "Quota Exceeded for tenant") = RespKind.quota :=
  ⟨(C9_precedence 503 "Quota Exceeded for tenant").2.1,
   (C9_precedence 503 "Quota Exceeded for tenant").2.2.2.2 (by omega) (by decide)⟩

/-! ## Client-side parameter validation (src/sdk/python/minio/client.py)

Each operation of minio/client.py checks its parameters and raises
ValidationError before touching `self.session`; only when all checks
pass does it build the URL and issue the HTTP request. The phase up to
the first session call is embedded as an `Action`. Python `not s` on a
string is true exactly for the empty string, and `data is None` for the
absent body. -/

/-- What the client does before any networking: either raise a
ValidationError with the given message, or issue the HTTP request for
the given path, tenant and optional key. -/
inductive Action where
  | raiseValidation (message : String)
  | issueRequest (path : String) (tenant : String) (key : Option String)
  deriving DecidableEq, Repr

/-- Whether the action is a raised ValidationError. -/
def Action.isValidationError : Action → Bool
  | .raiseValidation _ => true
  | .issueRequest _ _ _ => false

/-- Whether the action issues an HTTP request. -/
def Action.issuesHttp : Action → Bool
  | .raiseValidation _ => false
  | .issueRequest _ _ _ => true

/-- Validation prelude of `Client.upload` (lines 124-148): empty
tenant_id, then empty key, then missing data each raise ValidationError;
otherwise the PUT /upload request is issued. -/
def upload_pre (tenant_id key : String) (data : Option (List Nat)) : Action :=
  if tenant_id = "" then .raiseValidation "tenant_id is required"
  else if key = "" then .raiseValidation "key is required"
  else if data.isNone then .raiseValidation "data is required"
  else .issueRequest "/upload" tenant_id (some key)

/-- Validation prelude of `Client.download` (lines 167-177). -/
def download_pre (tenant_id key : String) : Action :=
  if tenant_id = "" then .raiseValidation "tenant_id is required"
  else if key = "" then .raiseValidation "key is required"
  else .issueRequest "/download" tenant_id (some key)

/-- Validation prelude of `Client.delete` (lines 193-203). -/
def delete_pre (tenant_id key : String) : Action :=
  if tenant_id = "" then .raiseValidation "tenant_id is required"
  else if key = "" then .raiseValidation "key is required"
  else .issueRequest "/delete" tenant_id (some key)

/-- Validation prelude of `Client.list` (lines 221-236). -/
def list_pre (tenant_id : String) : Action :=
  if tenant_id = "" then .raiseValidation "tenant_id is required"
  else .issueRequest "/list" tenant_id Option.none

/-- Validation prelude of `Client.get_quota` (lines 255-261). -/
def get_quota_pre (tenant_id : String) : Action :=
  if tenant_id = "" then .raiseValidation "tenant_id is required"
  else .issueRequest "/quota" tenant_id Option.none

/-- C4: an empty tenant_id makes upload, download, delete, list and
get_quota raise ValidationError, an empty key does so for upload,
download and delete, and a missing body does so for upload; in every
such case no HTTP request is issued, so the session's retry machinery
never runs for the failed call. -/
theorem C4_validation_before_request (tenant_id key : String) (data : Option (List Nat)) :
    (tenant_id = "" →
      (upload_pre tenant_id key data).isValidationError = true ∧
      (download_pre tenant_id key).isValidationError = true ∧
      (delete_pre tenant_id key).isValidationError = true ∧
      (list_pre tenant_id).isValidationError = true ∧
      (get_quota_pre tenant_id).isValidationError = true) ∧
    (key = "" →
      (upload_pre tenant_id key data).isValidationError = true ∧
      (download_pre tenant_id key).isValidationError = true ∧
      (delete_pre tenant_id key).isValidationError = true) ∧
    (data = Option.none →
      (upload_pre tenant_id key data).isValidationError = true) ∧
    (∀ a : Action, a.isValidationError = true → a.issuesHttp = false) := by
  refine ⟨?_, ?_, ?_, ?_⟩
  · intro h
    simp [upload_pre, download_pre, delete_pre, list_pre, get_quota_pre, h, Action.isValidationError]
  · intro h
    by_cases ht : tenant_id = "" <;>
      simp [upload_pre, download_pre, delete_pre, h, ht, Action.isValidationError]
  · intro h
    by_cases ht : tenant_id = "" <;> by_cases hk : key = "" <;>
      simp [upload_pre, h, ht, hk, Action.isValidationError]
  · intro a ha
    cases a with
    | raiseValidation m => rfl
    | issueRequest p t k => simp [Action.isValidationError] at ha

/-- C4 witness: instantiating the validation theorem at empty tenant,
empty key and missing body. -/
theorem C4_validation_before_request_witness :
    (upload_pre "" "k" (some [1])).isValidationError = true ∧
    (upload_pre "t" "" (some [1])).isValidationError = true ∧
    (upload_pre "t" "k" Option.none).isValidationError = true ∧
    (list_pre "").isValidationError = true :=
  ⟨((C4_validation_before_request "" "k" (some [1])).1 rfl).1,
   ((C4_validation_before_request "t" "" (some [1])).2.1 rfl).1,
   (C4_validation_before_request "t" "k" Option.none).2.2.1 rfl,
   ((C4_validation_before_request "" "k" (some [1])).1 rfl).2.2.2.1⟩

/-! ## The uniform retry loop (src/sdk_python_client.py, MinIOClient._do_with_retry)

The loop runs `func` for attempts 0 .. max_retries; any `MinIOError` is
caught and, unless the attempt was the last, a sleep of
`base_delay * 2 ** attempt` precedes the next attempt. After the loop
the last error is re-raised wrapped in a message counting the attempts.
The embedding takes `func` as an attempt-indexed computation and records
the result, the number of invocations of `func`, and the list of sleep
delays. -/

/-- One execution of the retry loop starting at a given attempt number
with the given number of further attempts allowed; returns the raw
result together with the count of invocations and the sleep delays. -/
def retryGo (f : Nat → Except String α) (base_delay : Rat) (attempt : Nat) :
    Nat → Except String α × Nat × List Rat
  | 0 =>
    (f attempt, 1, [])
  | remaining + 1 =>
    match f attempt with
    | .ok v => (.ok v, 1, [])
    | .error e =>
      let rest := retryGo f base_delay (attempt + 1) remaining
      (match rest.1 with
       | .ok v => .ok v
       | .error e2 => .error e2,
       rest.2.1 + 1, base_delay * 2 ^ attempt :: rest.2.2)

/-- Embedding of `_do_with_retry`: run the loop from attempt 0 with
max_retries further attempts; a final failure is re-raised wrapped in
the "Operation failed after N attempts" message. -/
def do_with_retry (base_delay : Rat) (max_retries : Nat) (f : Nat → Except String α) :
    Except String α × Nat × List Rat :=
  let out := retryGo f base_delay 0 max_retries
  (match out.1 with
   | .ok v => .ok v
   | .error e =>
     .error ("Operation failed after " ++ toString (max_retries + 1) ++ " attempts: " ++ e),
   out.2)

/-- Invocation count of a retry run. -/
def retryCalls (base_delay : Rat) (max_retries : Nat) (f : Nat → Except String α) : Nat :=
  (do_with_retry base_delay max_retries f).2.1

/-- Sleep delays of a retry run. -/
def retrySleeps (base_delay : Rat) (max_retries : Nat) (f : Nat → Except String α) : List Rat :=
  (do_with_retry base_delay max_retries f).2.2

/-- Helper: when every attempt fails, the loop starting anywhere with r
further attempts performs r + 1 invocations, r sleeps, and ends in an
error. -/
theorem retryGo_allFail (f : Nat → Except String α) (bd : Rat)
    (hf : ∀ n, ∃ e, f n = .error e) :
    ∀ remaining attempt, (retryGo f bd attempt remaining).2.1 = remaining + 1 ∧
      (retryGo f bd attempt remaining).2.2.length = remaining ∧
      ∃ e, (retryGo f bd attempt remaining).1 = .error e := by
  intro remaining
  induction remaining with
  | zero =>
    intro attempt
    obtain ⟨e, he⟩ := hf attempt
    exact ⟨rfl, rfl, e, by simp [retryGo, he]⟩
  | succ r ih =>
    intro attempt
    obtain ⟨e, he⟩ := hf attempt
    obtain ⟨h1, h2, e2, h3⟩ := ih (attempt + 1)
    refine ⟨?_, ?_, e2, ?_⟩ <;> simp [retryGo, he, h1, h2, h3]

/-- C5 counterexample: the claim says a not-found failure is attempted
exactly once with no sleeping; but with the default max_retries of 3 and
base_delay of 1, an operation that keeps failing with a 404-style
MinIOError is invoked 4 times, sleeps three times (1, 2 and 4 seconds),
and is re-raised wrapped in the attempt-counting message. -/
theorem C5_counterexample :
    retryCalls 1 3 (fun _ => (.error "Delete failed: not found (status: 404)" : Except String Unit)) = 4 ∧
    retrySleeps 1 3 (fun _ => (.error "Delete failed: not found (status: 404)" : Except String Unit)) = [1, 2, 4] ∧
    (do_with_retry 1 3 (fun _ => (.error "Delete failed: not found (status: 404)" : Except String Unit))).1 =
      .error "Operation failed after 4 attempts: Delete failed: not found (status: 404)" := by
  refine ⟨rfl, ?_, rfl⟩
  show [(1 : Rat) * 2 ^ 0, 1 * 2 ^ 1, 1 * 2 ^ 2] = [1, 2, 4]
  norm_num

/-- C5 (amended): `_do_with_retry` classifies nothing — it catches every
MinIOError alike, so a persistently failing operation, whatever the
failure kind (validation, quota, not-found, 5xx), is invoked exactly
max_retries + 1 times with max_retries backoff sleeps before the
wrapped error is re-raised; only success stops the loop early, and a
first-try success is invoked exactly once with no sleep. -/
theorem C5_uniform_retry (bd : Rat) (maxR : Nat) (f : Nat → Except String α) :
    (∀ v, f 0 = .ok v → retryCalls bd maxR f = 1 ∧ retrySleeps bd maxR f = []) ∧
    ((∀ n, ∃ e, f n = .error e) →
      retryCalls bd maxR f = maxR + 1 ∧
      (retrySleeps bd maxR f).length = maxR ∧
      ∃ msg, (do_with_retry bd maxR f).1 = .error msg) := by
  constructor
  · intro v hv
    cases maxR with
    | zero =>
      constructor <;>
        simp [retryCalls, retrySleeps, do_with_retry, retryGo, hv]
    | succ m =>
      constructor <;>
        simp [retryCalls, retrySleeps, do_with_retry, retryGo, hv]
  · intro hf
    obtain ⟨h1, h2, e, h3⟩ := retryGo_allFail f bd hf maxR 0
    refine ⟨?_, ?_, ?_⟩
    · simpa [retryCalls, do_with_retry] using h1
    · simpa [retrySleeps, do_with_retry] using h2
    · exact ⟨"Operation failed after " ++ toString (maxR + 1) ++ " attempts: " ++ e,
        by simp [do_with_retry, h3]⟩

/-- C5 witness: instantiating the uniform-retry theorem at a function
failing every attempt with a quota message, max_retries 2. -/
theorem C5_uniform_retry_witness :
    retryCalls 1 2 (fun _ => (.error "Upload failed: quota exceeded (status: 403)" : Except String Unit)) = 3 ∧
    (retrySleeps 1 2 (fun _ => (.error "Upload failed: quota exceeded (status: 403)" : Except String Unit))).length = 2 :=
  ⟨((C5_uniform_retry 1 2 _).2 (fun _ => ⟨_, rfl⟩)).1,
   ((C5_uniform_retry 1 2 _).2 (fun _ => ⟨_, rfl⟩)).2.1⟩

/-! ## Idempotent delete against the modelled Index (claim C7) -/

/-- Modelled from the spec: the Object Index delete contract of §4.2
(delete(tenant, key) gives previous_size or NotFound) and the wire table
of §6 (Delete answers 200 on success, 404 when the key is absent) — the
repository contains no server implementation, only its clients. The
server state is the tenant's list of live keys; delete removes the key
and answers 200 when present, answers 404 leaving the state unchanged
when absent. -/
def server_delete (keys : List String) (key : String) : Nat × List String :=
  if key ∈ keys then (200, keys.erase key) else (404, keys)

/-- Embedding of `Client.delete` (minio/client.py lines 182-205) wired to
the modelled server: validation prelude, then the DELETE request, then
`_handle_response` on the returned status (the error body text plays no
role for 2xx and 404 statuses); yields the new server state on success. -/
def client_delete (keys : List String) (tenant_id key : String) :
    Except MinioExc (List String) :=
  if tenant_id = "" then .error (.validationError "tenant_id is required")
  else if key = "" then .error (.validationError "key is required")
  else
    let out := server_delete keys key
    match handle_response out.1 "object not found" with
    | .ok _ => .ok out.2
    | .error e => .error e

/-- C7: a 404 response makes the handler raise NotFoundError rather than
return normally (this covers both delete and download, which share
`_handle_response`); and deleting a live key succeeds while immediately
repeating the delete raises NotFoundError. -/
theorem C7_delete_not_found (keys : List String) (tenant_id key : String) (body : String) :
    respKind (handle_response 404 body) = RespKind.notFound ∧
    handle_response 404 body ≠ .ok () ∧
    (tenant_id ≠ "" → key ≠ "" → keys.Nodup → key ∈ keys →
      client_delete keys tenant_id key = .ok (keys.erase key) ∧
      ∃ m sc rb, client_delete (keys.erase key) tenant_id key =
        .error (.notFoundError m sc rb)) := by
  have h404 : ∀ b : String, handle_response 404 b =
      .error (.notFoundError ("Resource not found: " ++ b) (some 404) (some b)) := by
    intro b
    unfold handle_response
    rw [if_neg (by omega), if_neg (by omega), if_pos rfl]
  refine ⟨?_, ?_, ?_⟩
  · rw [h404]; rfl
  · rw [h404]; simp
  intro ht hk hnd hmem
  constructor
  · simp only [client_delete, if_neg ht, if_neg hk, server_delete, if_pos hmem]
    rfl
  · refine ⟨"Resource not found: object not found", some 404, some "object not found", ?_⟩
    have hnot : key ∉ keys.erase key := hnd.not_mem_erase
    simp only [client_delete, if_neg ht, if_neg hk, server_delete, if_neg hnot, h404]
    rfl

/-- C7 witness: deleting the live key "a" from state ["a", "b"] succeeds,
and repeating the delete raises NotFoundError. -/
theorem C7_delete_not_found_witness :
    client_delete ["a", "b"] "t" "a" = .ok (List.erase ["a", "b"] "a") ∧
    ∃ m sc rb, client_delete (List.erase ["a", "b"] "a") "t" "a" =
      .error (.notFoundError m sc rb) :=
  (C7_delete_not_found ["a", "b"] "t" "a" "x").2.2
    (by decide) (by decide) (by decide) (by decide)

/-! ## Key length is not validated client-side (claim C8) -/

/-- A key of 1025 ASCII characters, hence 1025 UTF-8 bytes. -/
def longKey : String := String.mk (List.replicate 1025 'a')

set_option maxRecDepth 8000

/-- C8 counterexample: the claim says an upload whose key exceeds 1024
UTF-8 bytes is rejected as a validation error before any HTTP request;
but `Client.upload` only checks the key for emptiness, so the 1025-byte
key passes validation and the request is issued. -/
theorem C8_counterexample :
    1024 < longKey.utf8ByteSize ∧
    (upload_pre "tenant-1" longKey (some [0])).isValidationError = false ∧
    (upload_pre "tenant-1" longKey (some [0])).issuesHttp = true := by
  refine ⟨by decide, by decide, by decide⟩

/-- C8 (amended): the client rejects only the empty key (and empty
tenant, missing body); it performs no maximum-length validation, so an
upload with any nonempty key — however long its UTF-8 encoding — passes
client-side validation and the HTTP request is issued; the 1024-byte
bound of the spec is enforced, if at all, server-side. -/
theorem C8_no_length_validation (tenant_id key : String) (data : List Nat) :
    tenant_id ≠ "" → key ≠ "" →
    (upload_pre tenant_id key (some data)).issuesHttp = true := by
  intro ht hk
  simp [upload_pre, ht, hk, Action.issuesHttp]

/-- C8 witness: the amended claim instantiated at the 1025-byte key. -/
theorem C8_no_length_validation_witness :
    (upload_pre "tenant-1" longKey (some [0])).issuesHttp = true :=
  C8_no_length_validation "tenant-1" longKey [0] (by decide) (by decide)

/-! ## Pagination completeness of list_all (claim C6)

Client side: `MinIOClient.list_all` (minio_enterprise.py lines 285-318)
starts with no marker, repeatedly calls `list`, yields every object of
each page, stops as soon as a page's is_truncated field is false, and
otherwise feeds the page's next_marker into the next call. Server side
(no server exists in the repository): the Index list contract is
modelled from spec.md §4.2 — keys are returned in lexicographic order
starting strictly after the marker, at most `limit` of them,
`truncated` is set when more remain, and `next_marker` is the last
returned key. The keys list stands for the tenant's live keys under the
requested prefix. -/

/-- Page returned by the modelled GET /list endpoint, with the field
names the client reads. -/
structure ListPage where
  objects : List String
  is_truncated : Bool
  next_marker : Option String
  deriving Repr

/-- The tenant's live keys strictly after an optional marker (the first
call of list_all sends no marker). -/
def markerFilter (marker : Option String) (keys : List String) : List String :=
  match marker with
  | Option.none => keys
  | some m => keys.filter (fun k => decide (m < k))

/-- Modelled from the spec: the Index list operation of §4.2 — list
returns keys in lexicographic order starting strictly after the marker,
limit bounds the count, truncated is set when more remain, and
next_marker is the last returned key. -/
def server_list (keys : List String) (marker : Option String) (limit : Nat) : ListPage :=
  let rest := markerFilter marker keys
  { objects := rest.take limit
    is_truncated := decide (limit < rest.length)
    next_marker := (rest.take limit).getLast? }

/-- Embedding of the `list_all` loop with explicit fuel: yield the
page's objects, stop when the page is not truncated, else continue from
the page's next_marker. -/
def list_all_go (keys : List String) (limit : Nat) : Option String → Nat → List String
  | _, 0 => []
  | marker, fuel + 1 =>
    let page := server_list keys marker limit
    page.objects ++ (if page.is_truncated then list_all_go keys limit page.next_marker fuel else [])

/-- The full iteration of `list_all`: the loop from no marker, with fuel
beyond the bound on the number of pages (each page consumes at least one
remaining key). -/
def list_all (keys : List String) (limit : Nat) : List String :=
  list_all_go keys limit Option.none (keys.length + 1)

/-- Helper: in a strictly sorted list every member is at most the last
element. -/
theorem sorted_le_getLast :
    ∀ (l : List String) (hl : l ≠ []), l.Sorted (· < ·) → ∀ a ∈ l, a ≤ l.getLast hl := by
  intro l
  induction l with
  | nil => intro hl; exact absurd rfl hl
  | cons x xs ih =>
    intro hl hs a ha
    rcases List.mem_cons.mp ha with rfl | hmem
    · cases xs with
      | nil => simp [List.getLast]
      | cons y ys =>
        have hx : a < (y :: ys).getLast (by simp) :=
          (List.sorted_cons.mp hs).1 _ (List.getLast_mem (by simp))
        rw [List.getLast_cons (by simp)]
        exact le_of_lt hx
    · have hxs : xs ≠ [] := List.ne_nil_of_mem hmem
      rw [List.getLast_cons hxs]
      exact ih hxs (List.sorted_cons.mp hs).2 a hmem

/-- Helper: in a strictly sorted list, the keys strictly after the last
element of the first n entries are exactly the entries after position n. -/
theorem filter_lt_getLast_take (l : List String) (hs : l.Sorted (· < ·)) (n : Nat)
    (lk : String) (hlast : (l.take n).getLast? = some lk) :
    l.filter (fun k => decide (lk < k)) = l.drop n := by
  have htne : l.take n ≠ [] := by
    intro h; rw [h] at hlast; simp at hlast
  have hlk : lk = (l.take n).getLast htne := by
    rw [List.getLast?_eq_getLast _ htne] at hlast
    exact (Option.some_injective _ hlast).symm
  have hsort_take : (l.take n).Sorted (· < ·) :=
    List.Pairwise.sublist (List.take_sublist n l) hs
  have h1 : (l.take n).filter (fun k => decide (lk < k)) = [] := by
    rw [List.filter_eq_nil_iff]
    intro a ha
    have : a ≤ lk := hlk ▸ sorted_le_getLast (l.take n) htne hsort_take a ha
    simpa using not_lt.mpr this
  have h2 : (l.drop n).filter (fun k => decide (lk < k)) = l.drop n := by
    rw [List.filter_eq_self]
    intro b hb
    have hmem : lk ∈ l.take n := hlk ▸ List.getLast_mem htne
    simpa using hs.rel_of_mem_take_of_mem_drop hmem hb
  conv_lhs => rw [← List.take_append_drop n l]
  rw [List.filter_append, h1, h2, List.nil_append]

/-- Helper: restarting from a marker that lies in the current remainder
filters the original keys the same way as filtering the remainder. -/
theorem markerFilter_trans (keys : List String) (marker : Option String) (lk : String)
    (hmem : lk ∈ markerFilter marker keys) :
    markerFilter (some lk) keys = (markerFilter marker keys).filter (fun k => decide (lk < k)) := by
  cases marker with
  | none => rfl
  | some m =>
    simp only [markerFilter] at hmem ⊢
    rw [List.filter_filter]
    apply List.filter_congr
    intro k hk
    have hmlk : m < lk := by simpa using List.of_mem_filter hmem
    by_cases h : lk < k
    · simp [h, lt_trans hmlk h]
    · simp [h]

/-- Helper: with positive limit and enough fuel, the loop starting at
any marker returns exactly the keys after that marker. -/
theorem list_all_go_complete (keys : List String) (limit : Nat)
    (hkeys : keys.Sorted (· < ·)) (hl : 0 < limit) :
    ∀ fuel marker, (markerFilter marker keys).length < fuel →
      list_all_go keys limit marker fuel = markerFilter marker keys := by
  intro fuel
  induction fuel with
  | zero => intro marker h; omega
  | succ f ih =>
    intro marker hlen
    have hrest : (markerFilter marker keys).Sorted (· < ·) := by
      cases marker with
      | none => exact hkeys
      | some m => exact List.Pairwise.filter _ hkeys
    by_cases htr : limit < (markerFilter marker keys).length
    · have htake_len : ((markerFilter marker keys).take limit).length = limit := by
        rw [List.length_take]; omega
      have htake_ne : (markerFilter marker keys).take limit ≠ [] := by
        intro h; rw [h] at htake_len; simp at htake_len; omega
      obtain ⟨lk, hlk⟩ : ∃ lk, ((markerFilter marker keys).take limit).getLast? = some lk :=
        ⟨_, List.getLast?_eq_getLast _ htake_ne⟩
      have hdrop : (markerFilter marker keys).filter (fun k => decide (lk < k)) =
          (markerFilter marker keys).drop limit :=
        filter_lt_getLast_take _ hrest limit lk hlk
      have hmem_lk : lk ∈ markerFilter marker keys := by
        have h1 : lk ∈ (markerFilter marker keys).take limit := by
          rw [List.getLast?_eq_getLast _ htake_ne] at hlk
          exact (Option.some_injective _ hlk) ▸ List.getLast_mem htake_ne
        exact List.mem_of_mem_take h1
      have hnext : markerFilter (some lk) keys = (markerFilter marker keys).drop limit := by
        rw [markerFilter_trans keys marker lk hmem_lk, hdrop]
      have hlen2 : (markerFilter (some lk) keys).length < f := by
        rw [hnext, List.length_drop]; omega
      simp only [list_all_go, server_list]
      rw [hlk, if_pos (by simpa using htr), ih (some lk) hlen2, hnext, List.take_append_drop]
    · have hle : (markerFilter marker keys).length ≤ limit := by omega
      simp only [list_all_go, server_list]
      rw [if_neg (by simpa using htr), List.append_nil]
      exact List.take_of_length_le hle

/-- C6: with no concurrent mutation, iterating list_all over the
modelled server — each page's next_marker feeding the next call until a
page is not truncated — yields exactly the tenant's live keys, in
lexicographic order, with no duplicates; the loop stops at the first
non-truncated page by construction and the fuel bound keys.length + 1
is never exhausted. -/
theorem C6_list_all_complete (keys : List String) (limit : Nat)
    (hkeys : keys.Sorted (· < ·)) (hl : 0 < limit) :
    list_all keys limit = keys ∧
    (list_all keys limit).Sorted (· < ·) ∧
    (list_all keys limit).Nodup := by
  have h : list_all keys limit = keys := by
    have := list_all_go_complete keys limit hkeys hl (keys.length + 1) Option.none
      (by simp [markerFilter])
    simpa [list_all, markerFilter] using this
  refine ⟨h, ?_, ?_⟩
  · rw [h]; exact hkeys
  · rw [h]; exact hkeys.nodup

/-- C6 witness: the full iteration over keys a, b, c with server page
size 2 yields exactly those keys in order. -/
theorem C6_list_all_complete_witness :
    list_all ["a", "b", "c"] 2 = ["a", "b", "c"] ∧
    (list_all ["a", "b", "c"] 2).Sorted (· < ·) ∧
    (list_all ["a", "b", "c"] 2).Nodup :=
  C6_list_all_complete ["a", "b", "c"] 2
    (by simp [List.sorted_cons]; decide)
    (by omega)

/-! ## Response-model parsing (src/sdk/python/minio/models.py, claim C10)

Python values are dynamically typed, so the embedding carries a single
value type and each dataclass field stores whatever `dict.get` returned,
exactly as the Python code does. The stdlib datetime library is
abstracted: `parseIso` stands for `datetime.fromisoformat` (None for a
ValueError) and `now` for `datetime.now()`. The exception points of the
code are embedded explicitly: attribute access `.get` on a non-dict
raises AttributeError, `for` over a non-iterable raises TypeError, and
`fromisoformat` failures are caught by the try/except of
`Object.from_dict`. -/

/-- A dynamically typed Python value as relevant to models.py: strings,
ints, floats, datetimes (abstract timestamps), lists, dicts and None. -/
inductive PyVal where
  | str (s : String)
  | int (n : Int)
  | ratv (q : Rat)
  | dt (t : Int)
  | list (l : List PyVal)
  | dict (d : List (String × PyVal))
  | pynone

/-- Exceptions the parsing code can raise. -/
inductive PyExc where
  | typeError
  | attributeError
  deriving DecidableEq, Repr

/-- Model of Python `data.get(k, dflt)` on a dict. -/
def dictGet (d : List (String × PyVal)) (k : String) (dflt : PyVal) : PyVal :=
  match d.find? (fun p => p.1 == k) with
  | some p => p.2
  | Option.none => dflt

/-- The Object dataclass with dynamically typed fields, as constructed
by `Object.from_dict`. -/
structure ObjectM where
  key : PyVal
  size : PyVal
  last_modified : PyVal
  content_type : PyVal
  etag : PyVal

/-- The ListResponse dataclass. -/
structure ListResponseM where
  objects : List ObjectM
  count : PyVal

/-- The QuotaInfo dataclass. -/
structure QuotaInfoM where
  tenant_id : PyVal
  used : PyVal
  limit : PyVal
  percentage : PyVal

/-- The HealthStatus dataclass. -/
structure HealthStatusM where
  status : PyVal
  timestamp : PyVal

/-- Embedding of `Object.from_dict` (models.py lines 18-34): defaults
"" / 0 / "" / "" for missing fields; a string last_modified has "Z"
replaced by "+00:00" and is parsed, falling back to the current time on
failure; a non-string last_modified is stored as-is. -/
def Object_from_dict (parseIso : String → Option Int) (now : Int)
    (d : List (String × PyVal)) : ObjectM :=
  let lm0 := dictGet d "last_modified" (.str "")
  let lm := match lm0 with
    | .str s =>
      match parseIso (s.replace "Z" "+00:00") with
      | some t => PyVal.dt t
      | Option.none => PyVal.dt now
    | v => v
  { key := dictGet d "key" (.str "")
    size := dictGet d "size" (.int 0)
    last_modified := lm
    content_type := dictGet d "content_type" (.str "")
    etag := dictGet d "etag" (.str "") }

/-- Calling `Object.from_dict` on an arbitrary value: a non-dict has no
`.get` attribute, so Python raises AttributeError. -/
def Object_from_val (parseIso : String → Option Int) (now : Int) :
    PyVal → Except PyExc ObjectM
  | .dict d => .ok (Object_from_dict parseIso now d)
  | _ => .error .attributeError

/-- Model of Python `for` iteration: lists iterate their elements,
strings their characters (as 1-character strings), dicts their keys;
other values raise TypeError. -/
def pyIter : PyVal → Except PyExc (List PyVal)
  | .list l => .ok l
  | .str s => .ok (s.data.map (fun c => .str (String.mk [c])))
  | .dict d => .ok (d.map (fun p => .str p.1))
  | _ => .error .typeError

/-- The list comprehension of `ListResponse.from_dict`: map
`Object.from_dict` over the iterated values, propagating the first
exception. -/
def objsFromVals (parseIso : String → Option Int) (now : Int) :
    List PyVal → Except PyExc (List ObjectM)
  | [] => .ok []
  | v :: vs =>
    match Object_from_val parseIso now v with
    | .error e => .error e
    | .ok o =>
      match objsFromVals parseIso now vs with
      | .error e => .error e
      | .ok os => .ok (o :: os)

/-- Embedding of `ListResponse.from_dict` (models.py lines 44-48):
iterate `data.get("objects", [])` and build an Object from each
element. -/
def ListResponse_from_dict (parseIso : String → Option Int) (now : Int)
    (d : List (String × PyVal)) : Except PyExc ListResponseM :=
  match pyIter (dictGet d "objects" (.list [])) with
  | .error e => .error e
  | .ok l =>
    match objsFromVals parseIso now l with
    | .error e => .error e
    | .ok objs => .ok { objects := objs, count := dictGet d "count" (.int 0) }

/-- Embedding of `QuotaInfo.from_dict` (models.py lines 60-68). -/
def QuotaInfo_from_dict (d : List (String × PyVal)) : QuotaInfoM :=
  { tenant_id := dictGet d "tenant_id" (.str "")
    used := dictGet d "used" (.int 0)
    limit := dictGet d "limit" (.int 0)
    percentage := dictGet d "percentage" (.ratv 0) }

/-- Embedding of `HealthStatus.from_dict` (models.py lines 78-84). -/
def HealthStatus_from_dict (d : List (String × PyVal)) : HealthStatusM :=
  { status := dictGet d "status" (.str "unknown")
    timestamp := dictGet d "timestamp" (.str "") }

/-- Helper: mapping Object.from_dict over a list whose elements are all
dicts never raises. -/
theorem objsFromVals_total (parseIso : String → Option Int) (now : Int) :
    ∀ l : List PyVal, (∀ v ∈ l, ∃ dd, v = PyVal.dict dd) →
      ∃ os, objsFromVals parseIso now l = .ok os := by
  intro l
  induction l with
  | nil => exact fun _ => ⟨[], rfl⟩
  | cons v vs ih =>
    intro h
    obtain ⟨dd, rfl⟩ := h v (List.mem_cons_self v vs)
    obtain ⟨os, hos⟩ := ih (fun w hw => h w (List.mem_cons_of_mem _ hw))
    exact ⟨Object_from_dict parseIso now dd :: os, by simp [objsFromVals, Object_from_val, hos]⟩

/-- C10 counterexample: the claim says ListResponse.from_dict returns a
value for every input dict; but when the "objects" entry is the integer
5 the iteration raises TypeError, and when it is a list holding the
non-dict 3 the element conversion raises AttributeError. -/
theorem C10_counterexample :
    ListResponse_from_dict (fun _ => Option.none) 0 [("objects", PyVal.int 5)] =
      .error PyExc.typeError ∧
    ListResponse_from_dict (fun _ => Option.none) 0 [("objects", PyVal.list [PyVal.int 3])] =
      .error PyExc.attributeError :=
  ⟨rfl, rfl⟩

/-- C10 (amended): Object.from_dict, QuotaInfo.from_dict and
HealthStatus.from_dict are total on every dict, missing fields default
to "" / 0 / 0.0 / "unknown", and a last_modified string that does not
parse as an ISO timestamp falls back to the current time; but
ListResponse.from_dict is total only when the dict's "objects" entry
(defaulting to the empty list) is iterable with dict elements — a
non-iterable value raises TypeError and a non-dict element raises
AttributeError. -/
theorem C10_parsing_totality (parseIso : String → Option Int) (now : Int)
    (d : List (String × PyVal)) :
    (∀ dd, Object_from_val parseIso now (PyVal.dict dd) =
      .ok (Object_from_dict parseIso now dd)) ∧
    (∀ s, dictGet d "last_modified" (.str "") = PyVal.str s →
      parseIso (s.replace "Z" "+00:00") = Option.none →
      (Object_from_dict parseIso now d).last_modified = PyVal.dt now) ∧
    (Object_from_dict parseIso now []).key = PyVal.str "" ∧
    (Object_from_dict parseIso now []).size = PyVal.int 0 ∧
    (QuotaInfo_from_dict []).percentage = PyVal.ratv 0 ∧
    (HealthStatus_from_dict []).status = PyVal.str "unknown" ∧
    (∀ l, dictGet d "objects" (.list []) = PyVal.list l →
      (∀ v ∈ l, ∃ dd, v = PyVal.dict dd) →
      ∃ r, ListResponse_from_dict parseIso now d = .ok r) := by
  refine ⟨fun dd => rfl, ?_, rfl, rfl, rfl, rfl, ?_⟩
  · intro s hs hparse
    simp [Object_from_dict, hs, hparse]
  · intro l hl hdicts
    obtain ⟨os, hos⟩ := objsFromVals_total parseIso now l hdicts
    exact ⟨{ objects := os, count := dictGet d "count" (.int 0) },
      by simp [ListResponse_from_dict, hl, pyIter, hos]⟩

/-- C10 witness: an unparseable last_modified string falls back to the
supplied current time, and a list of dict objects parses without an
exception. -/
theorem C10_parsing_totality_witness :
    (Object_from_dict (fun _ => Option.none) 7
      [("last_modified", PyVal.str "not-a-date")]).last_modified = PyVal.dt 7 ∧
    ∃ r, ListResponse_from_dict (fun _ => Option.none) 7
      [("objects", PyVal.list [PyVal.dict [("key", PyVal.str "k")]])] = .ok r :=
  ⟨(C10_parsing_totality (fun _ => Option.none) 7
      [("last_modified", PyVal.str "not-a-date")]).2.1 "not-a-date" rfl rfl,
   (C10_parsing_totality (fun _ => Option.none) 7
      [("objects", PyVal.list [PyVal.dict [("key", PyVal.str "k")]])]).2.2.2.2.2.2
      [PyVal.dict [("key", PyVal.str "k")]] rfl
      (fun v hv => ⟨[("key", PyVal.str "k")], by simpa using hv⟩)⟩

end MinioSpec
